import Mathlib

/-!
Shallow embedding of `src/wsgi.py` (bircho/docker-weasyprint), a Flask app
exposing `/health`, `/`, `/pdf`, `/multiple` and `/zip2pdf`.

Modelling choices:
- A `Request` carries its header list, query-arg list and raw body (bytes as
  a `String`).
- The external libraries (weasyprint rendering, `json.loads`, `zipfile`
  extraction) are abstracted as a parameter structure `Lib`: rendering maps
  an HTML source to its list of pages (an abstract type `Page`), and the
  parsers are fallible (`Option`), `none` meaning the Python call raises.
- A handler returns a `HandlerResult`: a built response, an explicit Flask
  `abort status`, or `exception` meaning an exception escapes the handler
  body (Flask/werkzeug then produce a generic error response; no response is
  assembled by this code).
- `request.headers[k]` on a missing key raises in werkzeug, so direct
  indexing is modelled as a lookup returning `Option` with the `none` case
  mapped to `exception`; the guarded access in `checkauth`
  (`k not in request.headers or ...`) short-circuits exactly as in Python.
- `glob.glob(os.path.join(temp_dir, "**/*.html"), recursive=True)` is
  modelled over the list of extracted entry paths: a path matches when its
  last component ends with the extension and no component is hidden
  (glob `*` and `**` do not match a leading dot). `Lib.unzip` returns the
  extracted paths in the order glob enumerates them.
-/

/-- An HTML or CSS source as handed to weasyprint: either an in-memory
string (`HTML(string=...)` / `CSS(string=...)`) or a file path
(`HTML(filename=...)` / `CSS(filename=...)`). -/
inductive Src where
  | str (s : String)
  | file (path : String)
deriving DecidableEq, Repr

/-- The PDF value produced by a handler, recording exactly the rendering
request made to weasyprint: `single html stylesheets` stands for
`html.write_pdf(stylesheets=...)`, and `combined pages` stands for
`documents[0].copy(pages).write_pdf()`. -/
inductive Pdf (Page : Type) where
  | single (html : Src) (stylesheets : List Src)
  | combined (pages : List Page)
deriving DecidableEq, Repr

/-- Body of an assembled Flask response. -/
inductive RespBody (Page : Type) where
  | text (s : String)
  | pdf (p : Pdf Page)
deriving DecidableEq, Repr

/-- Result of running a handler on a request. -/
inductive HandlerResult (Page : Type) where
  | response (status : Nat) (headers : List (String × String)) (body : RespBody Page)
  | abort (status : Nat)
  | exception
deriving DecidableEq, Repr

/-- An incoming HTTP request: header list, query arguments, raw body. -/
structure Request where
  headers : List (String × String)
  args : List (String × String)
  body : String
deriving DecidableEq, Repr

/-- The external libraries the handlers call, abstracted:
`render` is `HTML(...).render()` returning the pages of the document;
`parseHtmlCss` is `json.loads` followed by the `data["html"]` and
`data["css"]` extraction of the `/pdf` handler; `parseJsonArr` is
`json.loads` expecting a list of strings; `unzip` is
`zipfile.ZipFile(...).extractall` returning the extracted paths.
`none` models the Python call raising an exception. -/
structure Lib (Page : Type) where
  render : Src → List Page
  parseHtmlCss : String → Option (String × List String)
  parseJsonArr : String → Option (List String)
  unzip : String → Option (List String)

/-- Lookup of a key in a header or argument list (first match). -/
def assocGet (l : List (String × String)) (k : String) : Option String :=
  (l.find? (fun p => p.1 = k)).map Prod.snd

/-- `request.args.get(k, d)`. -/
def argsGet (req : Request) (k d : String) : String :=
  (assocGet req.args k).getD d

/-- Split a character list at every `/`, keeping empty components, like
`String.splitOn "/"`. The accumulator holds the current component
reversed. -/
def splitSlash : List Char → List Char → List (List Char)
  | [], acc => [acc.reverse]
  | c :: rest, acc =>
    if c = '/' then acc.reverse :: splitSlash rest [] else splitSlash rest (c :: acc)

/-- A path component is hidden when it starts with a dot; glob wildcards
do not match such names. -/
def hiddenComp (c : List Char) : Bool :=
  match c with
  | [] => false
  | ch :: _ => ch = '.'

/-- `ext` is a suffix of `cs`. -/
def suffixCh (ext cs : List Char) : Bool :=
  List.isPrefixOf ext.reverse cs.reverse

/-- Does an extracted path match `**/*<ext>` under recursive glob:
last component ends with `ext`, and no component starts with a dot
(glob wildcards do not match hidden names). -/
def globMatch (ext : String) (path : String) : Bool :=
  let comps := splitSlash path.data []
  comps.all (fun c => !hiddenComp c) && suffixCh ext.data (comps.getLastD [])

/-- The condition of `checkauth`:
`if "X_API_KEY" not in request.headers or os.environ.get("X_API_KEY") == request.headers["X_API_KEY"]`.
`env` is `os.environ.get("X_API_KEY")` (`none` when unset). -/
def authOk (env : Option String) (req : Request) : Bool :=
  match assocGet req.headers "X_API_KEY" with
  | none => true
  | some v => decide (env = some v)

/-- The `authenticate` decorator: wraps a handler, running it when `authOk`
holds and calling `abort(401)` otherwise. -/
def authenticate {Page : Type} (env : Option String)
    (f : Request → HandlerResult Page) (req : Request) : HandlerResult Page :=
  if authOk env req then f req else .abort 401

/-- Response assembly shared by the three PDF endpoints:
`make_response(pdf)` then setting the two headers. -/
def pdfResponse {Page : Type} (name : String) (p : Pdf Page) : HandlerResult Page :=
  .response 200
    [("Content-Type", "application/pdf"),
     ("Content-Disposition", "inline;filename=" ++ name)]
    (.pdf p)

/-- `GET /health` handler (`index` in the source): returns the string
`ok`, which Flask wraps as a 200 response. It is not decorated with
`authenticate` and never reads the request. -/
def index {Page : Type} (_req : Request) : HandlerResult Page :=
  .response 200 [] (.text "ok")

/-- The static usage page returned by `GET /`. -/
def homeHtml : String :=
  "
            <h1>PDF Generator</h1>
            <p>The following endpoints are available:</p>
            <ul>
                <li>POST to <code>/pdf?filename=myfile.pdf</code>. The body should
                    contain html or a JSON list of html strings and css strings: \x7b \"html\": html, \"css\": [css-file-objects] \x7d</li>
                <li>POST to <code>/multiple?filename=myfile.pdf</code>. The body
                    should contain a JSON list of html strings. They will each
                    be rendered and combined into a single pdf</li>
                <li>POST to <code>/zip2pdf?filename=myfile.pdf</code>. The body
                    should contain a .zip file with at least one html file. Can
                    be used for image heavy pages.</li>
            </ul>
        "

/-- `GET /` handler: static usage page, no authentication. -/
def home {Page : Type} (_req : Request) : HandlerResult Page :=
  .response 200 [] (.text homeHtml)

/-- Body of the `/pdf` handler (`generate` in the source), before the
`authenticate` wrapper. Direct indexing `request.headers["Content-Type"]`
raises when the header is missing. -/
def generateBody {Page : Type} (lib : Lib Page) (req : Request) : HandlerResult Page :=
  let name := argsGet req "filename" "unnamed.pdf"
  match assocGet req.headers "Content-Type" with
  | none => .exception
  | some ct =>
    if ct = "application/json" then
      match lib.parseHtmlCss req.body with
      | none => .exception
      | some (html, css) => pdfResponse name (.single (.str html) (css.map .str))
    else
      pdfResponse name (.single (.str req.body) [])

/-- The `/pdf` endpoint: `generateBody` under the `authenticate` decorator. -/
def generate {Page : Type} (lib : Lib Page) (env : Option String) (req : Request) :
    HandlerResult Page :=
  authenticate env (generateBody lib) req

/-- Body of the `/multiple` handler. `documents[0]` on an empty list raises
IndexError, modelled by the `[]` branch. The page list is
`[page for doc in documents for page in doc.pages]`. -/
def multipleBody {Page : Type} (lib : Lib Page) (req : Request) : HandlerResult Page :=
  let name := argsGet req "filename" "unnamed.pdf"
  match lib.parseJsonArr req.body with
  | none => .exception
  | some htmls =>
    let documents := htmls.map (fun h => lib.render (.str h))
    match documents with
    | [] => .exception
    | _ :: _ => pdfResponse name (.combined documents.flatten)

/-- The `/multiple` endpoint: `multipleBody` under `authenticate`. -/
def multiple {Page : Type} (lib : Lib Page) (env : Option String) (req : Request) :
    HandlerResult Page :=
  authenticate env (multipleBody lib) req

/-- Body of the `/zip2pdf` handler: extract the archive, glob for html and
css files, `abort(400)` when no html file is found, render with the
discovered stylesheets when exactly one is found, and otherwise render each
and concatenate the pages. -/
def zip2pdfBody {Page : Type} (lib : Lib Page) (req : Request) : HandlerResult Page :=
  let name := argsGet req "filename" "unnamed.pdf"
  match lib.unzip req.body with
  | none => .exception
  | some entries =>
    let htmls := entries.filter (globMatch ".html")
    let csss := entries.filter (globMatch ".css")
    match htmls with
    | [] => .abort 400
    | [h] => pdfResponse name (.single (.file h) (csss.map .file))
    | _ :: _ :: _ =>
      pdfResponse name (.combined ((htmls.map (fun h => lib.render (.file h))).flatten))

/-- The `/zip2pdf` endpoint: `zip2pdfBody` under `authenticate`. -/
def zip2pdf {Page : Type} (lib : Lib Page) (env : Option String) (req : Request) :
    HandlerResult Page :=
  authenticate env (zip2pdfBody lib) req

/-- A concrete instantiation of the external libraries over `Page := Nat`,
used to evaluate the handlers at concrete requests. -/
def natLib : Lib Nat where
  render := fun src =>
    match src with
    | .str s => [s.length]
    | .file p => [p.length, p.length + 1]
  parseHtmlCss := fun s =>
    if s = "objbody" then some ("<p>x</p>", ["css1", "css2"]) else none
  parseJsonArr := fun s =>
    if s = "arr2" then some ["a", "bb"]
    else if s = "arr0" then some []
    else none
  unzip := fun s =>
    if s = "zipmany" then some ["a.html", "b/c.html", "d.css"]
    else if s = "zipone" then some ["one.html", "sub/s.css", "note.txt"]
    else if s = "zipnone" then some ["x.txt", "img/p.png"]
    else none

/-! Helper lemmas shared by the claim theorems. -/

/-- The `/pdf` handler body never calls `abort`: every branch builds a
response or raises. -/
theorem generateBody_not_abort {Page : Type} (lib : Lib Page) (req : Request) (s : Nat) :
    generateBody lib req ≠ HandlerResult.abort s := by
  intro h
  unfold generateBody at h
  simp only [] at h
  split at h
  · simp at h
  · split at h
    · split at h
      · simp at h
      · simp [pdfResponse] at h
    · simp [pdfResponse] at h

/-- The `/multiple` handler body never calls `abort`. -/
theorem multipleBody_not_abort {Page : Type} (lib : Lib Page) (req : Request) (s : Nat) :
    multipleBody lib req ≠ HandlerResult.abort s := by
  intro h
  unfold multipleBody at h
  simp only [] at h
  split at h
  · simp at h
  · split at h
    · simp at h
    · simp [pdfResponse] at h

/-- The `/zip2pdf` handler body aborts exactly with 400 and exactly when the
archive extracts but no entry matches the recursive html glob. -/
theorem zip2pdfBody_abort_iff {Page : Type} (lib : Lib Page) (req : Request) (s : Nat) :
    zip2pdfBody lib req = HandlerResult.abort s ↔
      s = 400 ∧ ∃ entries, lib.unzip req.body = some entries ∧
        entries.filter (globMatch ".html") = [] := by
  constructor
  · intro h
    unfold zip2pdfBody at h
    cases hz : lib.unzip req.body with
    | none => rw [hz] at h; simp at h
    | some entries =>
      rw [hz] at h
      simp only [] at h
      cases hf : entries.filter (globMatch ".html") with
      | nil =>
        rw [hf] at h
        simp at h
        exact ⟨h.symm, entries, rfl, hf⟩
      | cons a t =>
        rw [hf] at h
        cases t with
        | nil => simp [pdfResponse] at h
        | cons b t2 => simp [pdfResponse] at h
  · rintro ⟨rfl, entries, hz, hf⟩
    simp [zip2pdfBody, hz, hf]

/-- The `authenticate` wrapper yields an `abort` either because the check
failed (status 401) or because the wrapped handler itself aborted. -/
theorem authenticate_abort_cases {Page : Type} (env : Option String)
    (f : Request → HandlerResult Page) (req : Request) (s : Nat)
    (h : authenticate env f req = HandlerResult.abort s) :
    (authOk env req = false ∧ s = 401) ∨
    (authOk env req = true ∧ f req = HandlerResult.abort s) := by
  unfold authenticate at h
  cases hA : authOk env req with
  | false =>
    rw [hA] at h
    simp at h
    exact Or.inl ⟨rfl, h.symm⟩
  | true =>
    rw [hA] at h
    simp at h
    exact Or.inr ⟨rfl, h⟩

/-! Claim theorems. -/

/-- Claim C2: the `checkauth` wrapper authorizes a request exactly when the
`X_API_KEY` header is absent from the request or when its value equals the
value of the `X_API_KEY` environment variable; in every other case it
aborts with 401. -/
theorem checkauth_authorizes_iff {Page : Type} (f : Request → HandlerResult Page)
    (env : Option String) (req : Request) :
    (authOk env req = true ↔
      assocGet req.headers "X_API_KEY" = none ∨
      ∃ v, assocGet req.headers "X_API_KEY" = some v ∧ env = some v) ∧
    (authOk env req = true → authenticate env f req = f req) ∧
    (authOk env req = false → authenticate env f req = HandlerResult.abort 401) := by
  refine ⟨?_, ?_, ?_⟩
  · cases h : assocGet req.headers "X_API_KEY" with
    | none => simp [authOk, h]
    | some v => simp [authOk, h, eq_comm]
  · intro hA
    simp [authenticate, hA]
  · intro hA
    simp [authenticate, hA]

/-- Witness for C2: with the secret set to `k` and a header carrying `bad`,
the wrapper aborts with 401. -/
theorem checkauth_authorizes_iff_wit :
    authenticate (some "k")
      (fun _ => (HandlerResult.response 200 [] (.text "ok") : HandlerResult Nat))
      ⟨[("X_API_KEY", "bad")], [], ""⟩ = HandlerResult.abort 401 :=
  (checkauth_authorizes_iff
    (fun _ => (HandlerResult.response 200 [] (.text "ok") : HandlerResult Nat))
    (some "k") ⟨[("X_API_KEY", "bad")], [], ""⟩).2.2 (by decide)

/-- Claim C9: when the `X_API_KEY` environment variable is unset, every
request supplying an `X_API_KEY` header is rejected with 401, while a
request omitting the header is authorized and the wrapped handler runs. -/
theorem env_unset_behavior {Page : Type} (f : Request → HandlerResult Page) (req : Request) :
    ((∃ v, assocGet req.headers "X_API_KEY" = some v) →
      authenticate none f req = HandlerResult.abort 401) ∧
    (assocGet req.headers "X_API_KEY" = none → authenticate none f req = f req) := by
  constructor
  · rintro ⟨v, hv⟩
    simp [authenticate, authOk, hv]
  · intro h
    simp [authenticate, authOk, h]

/-- Witness for C9: with the environment variable unset, a request carrying
any header value is aborted with 401. -/
theorem env_unset_behavior_wit :
    authenticate none
      (fun _ => (HandlerResult.response 200 [] (.text "ok") : HandlerResult Nat))
      ⟨[("X_API_KEY", "anything")], [], ""⟩ = HandlerResult.abort 401 :=
  (env_unset_behavior
    (fun _ => (HandlerResult.response 200 [] (.text "ok") : HandlerResult Nat))
    ⟨[("X_API_KEY", "anything")], [], ""⟩).1 ⟨"anything", by decide⟩

/-- Claim C8: every request to `/health` is answered 200 with body `ok`,
independent of its headers; the handler is not wrapped by `authenticate`
and ignores the request entirely. -/
theorem health_always_ok {Page : Type} (req : Request) :
    (index req : HandlerResult Page) = HandlerResult.response 200 [] (.text "ok") := rfl

/-- Claim C1 (code bug): with the secret set, a POST to `/pdf` that omits
the `X_API_KEY` header entirely is authorized, its body is processed, and a
200 PDF response is returned instead of the 401 the claim requires:
`checkauth` authorizes any request lacking the header. -/
theorem pdf_processed_without_key_header :
    generate natLib (some "s3cret")
      ⟨[("Content-Type", "application/json")], [("filename", "m.pdf")], "objbody"⟩ =
    pdfResponse "m.pdf" (Pdf.single (.str "<p>x</p>") [.str "css1", .str "css2"]) := by
  rfl

/-- Claim C3: for an authorized POST to `/zip2pdf` whose archive extracts,
the handler aborts with 400 exactly when no extracted entry matches the
recursive html glob; in that case no PDF response is assembled. -/
theorem zip2pdf_400_iff_no_html {Page : Type} (lib : Lib Page)
    (env : Option String) (req : Request) (entries : List String)
    (hauth : authOk env req = true) (hz : lib.unzip req.body = some entries) :
    zip2pdf lib env req = HandlerResult.abort 400 ↔
      entries.filter (globMatch ".html") = [] := by
  have hw : zip2pdf lib env req = zip2pdfBody lib req := by
    simp [zip2pdf, authenticate, hauth]
  rw [hw, zip2pdfBody_abort_iff]
  constructor
  · rintro ⟨-, e, he, hf⟩
    rw [hz] at he
    injection he with he
    rw [he]
    exact hf
  · intro hf
    exact ⟨rfl, entries, hz, hf⟩

/-- Witness for C3: an authorized request whose archive extracts to
`x.txt` and `img/p.png` only is aborted with 400. -/
theorem zip2pdf_400_iff_no_html_wit :
    zip2pdf natLib (some "k") ⟨[("X_API_KEY", "k")], [], "zipnone"⟩ =
      HandlerResult.abort 400 :=
  (zip2pdf_400_iff_no_html natLib (some "k") ⟨[("X_API_KEY", "k")], [], "zipnone"⟩
    ["x.txt", "img/p.png"] (by decide) (by decide)).mpr (by decide)

/-- Claim C4: for an authorized POST to `/zip2pdf` whose archive extracts,
when the html glob finds exactly one file it is rendered with every
discovered css file as stylesheet; when it finds two or more, each is
rendered with no stylesheet argument and the pages are concatenated. -/
theorem zip2pdf_css_rule {Page : Type} (lib : Lib Page)
    (env : Option String) (req : Request) (entries : List String)
    (hauth : authOk env req = true) (hz : lib.unzip req.body = some entries) :
    (∀ h0, entries.filter (globMatch ".html") = [h0] →
      zip2pdf lib env req =
        pdfResponse (argsGet req "filename" "unnamed.pdf")
          (.single (.file h0) ((entries.filter (globMatch ".css")).map .file))) ∧
    (∀ h0 h1 t, entries.filter (globMatch ".html") = h0 :: h1 :: t →
      zip2pdf lib env req =
        pdfResponse (argsGet req "filename" "unnamed.pdf")
          (.combined (((entries.filter (globMatch ".html")).map
            (fun h => lib.render (.file h))).flatten))) := by
  constructor
  · intro h0 hf
    simp [zip2pdf, authenticate, hauth, zip2pdfBody, hz, hf]
  · intro h0 h1 t hf
    simp [zip2pdf, authenticate, hauth, zip2pdfBody, hz, hf]

/-- Witness for C4: an authorized request whose archive extracts to exactly
one html file and one css file renders that file with that stylesheet. -/
theorem zip2pdf_css_rule_wit :
    zip2pdf natLib (some "k") ⟨[("X_API_KEY", "k")], [], "zipone"⟩ =
      pdfResponse "unnamed.pdf" (Pdf.single (.file "one.html") [.file "sub/s.css"]) := by
  have h := (zip2pdf_css_rule natLib (some "k") ⟨[("X_API_KEY", "k")], [], "zipone"⟩
    ["one.html", "sub/s.css", "note.txt"] (by decide) (by decide)).1
    "one.html" (by decide)
  rw [h]
  decide

/-- Claim C5: for an authorized POST to `/multiple` whose body parses as a
non-empty JSON array of HTML strings, each element is rendered and the
single resulting PDF holds the pages concatenated in array order. -/
theorem multiple_concatenates_in_order {Page : Type} (lib : Lib Page)
    (env : Option String) (req : Request) (htmls : List String)
    (hauth : authOk env req = true)
    (hp : lib.parseJsonArr req.body = some htmls) (hne : htmls ≠ []) :
    multiple lib env req =
      pdfResponse (argsGet req "filename" "unnamed.pdf")
        (.combined ((htmls.map (fun h => lib.render (.str h))).flatten)) := by
  cases htmls with
  | nil => exact absurd rfl hne
  | cons a t => simp [multiple, authenticate, hauth, multipleBody, hp]

/-- Witness for C5: the array `["a", "bb"]` yields the pages of `a`
followed by the pages of `bb`. -/
theorem multiple_concatenates_in_order_wit :
    multiple natLib (some "k") ⟨[("X_API_KEY", "k")], [("filename", "m.pdf")], "arr2"⟩ =
      pdfResponse "m.pdf" (Pdf.combined [1, 2]) :=
  multiple_concatenates_in_order natLib (some "k")
    ⟨[("X_API_KEY", "k")], [("filename", "m.pdf")], "arr2"⟩ ["a", "bb"]
    (by decide) (by decide) (by decide)

/-- Claim C10: an authorized POST to `/multiple` whose body parses as the
empty JSON array indexes `documents[0]` on an empty list and fails with an
uncaught exception, not with a 400 or any other distinguished status. -/
theorem multiple_empty_list_raises {Page : Type} (lib : Lib Page)
    (env : Option String) (req : Request)
    (hauth : authOk env req = true)
    (hp : lib.parseJsonArr req.body = some []) :
    multiple lib env req = HandlerResult.exception := by
  simp [multiple, authenticate, hauth, multipleBody, hp]

/-- Witness for C10: the body `arr0` parses to the empty array and the
handler raises. -/
theorem multiple_empty_list_raises_wit :
    multiple natLib (some "k") ⟨[("X_API_KEY", "k")], [], "arr0"⟩ =
      HandlerResult.exception :=
  multiple_empty_list_raises natLib (some "k") ⟨[("X_API_KEY", "k")], [], "arr0"⟩
    (by decide) (by decide)

/-- Counterexample to claim C6 as stated: an authorized POST to `/pdf`
whose headers carry no Content-Type is neither parsed as JSON nor as raw
HTML; the direct header indexing raises before the body is touched, so the
handler assembles no 200 PDF response at all. -/
theorem pdf_missing_content_type_raises :
    generate natLib (some "k") ⟨[("X_API_KEY", "k")], [], "rawbody"⟩ =
      HandlerResult.exception ∧
    generate natLib (some "k") ⟨[("X_API_KEY", "k")], [], "rawbody"⟩ ≠
      pdfResponse "unnamed.pdf" (Pdf.single (.str "rawbody") []) := by
  decide

/-- Claim C6 (amended): for an authorized POST to `/pdf` that carries a
Content-Type header, the body is parsed as JSON exactly when that header
equals `application/json` and as raw HTML otherwise; on success the
response is 200 with Content-Type `application/pdf`, Content-Disposition
`inline;filename=<name>` and the rendered PDF bytes as body (the shape
built by `pdfResponse`). A request without a Content-Type header instead
fails with an uncaught error before the body is processed. -/
theorem pdf_content_type_dichotomy {Page : Type} (lib : Lib Page)
    (env : Option String) (req : Request) (ct : String)
    (hauth : authOk env req = true)
    (hct : assocGet req.headers "Content-Type" = some ct) :
    (ct = "application/json" →
      generate lib env req =
        match lib.parseHtmlCss req.body with
        | none => HandlerResult.exception
        | some (html, css) =>
            pdfResponse (argsGet req "filename" "unnamed.pdf")
              (.single (.str html) (css.map .str))) ∧
    (ct ≠ "application/json" →
      generate lib env req =
        pdfResponse (argsGet req "filename" "unnamed.pdf")
          (.single (.str req.body) [])) := by
  constructor
  · intro hc
    subst hc
    simp [generate, authenticate, hauth, generateBody, hct]
  · intro hc
    simp [generate, authenticate, hauth, generateBody, hct, hc]

/-- Witness for the amended C6: a Content-Type of `text/plain` renders the
raw body with no stylesheet. -/
theorem pdf_content_type_dichotomy_wit :
    generate natLib (some "k")
      ⟨[("X_API_KEY", "k"), ("Content-Type", "text/plain")], [], "rawbody"⟩ =
      pdfResponse "unnamed.pdf" (Pdf.single (.str "rawbody") []) := by
  have h := (pdf_content_type_dichotomy natLib (some "k")
    ⟨[("X_API_KEY", "k"), ("Content-Type", "text/plain")], [], "rawbody"⟩
    "text/plain" (by decide) (by decide)).2 (by decide)
  rw [h]
  decide

/-- Claim C7: across all handlers, the only statuses produced by an
explicit `abort` are 401 (authentication failure) and 400 (extracted
archive with no html file); `/health` and `/` never abort; and the other
failures the handlers can hit (unparseable JSON body, unreadable zip,
a missing Content-Type on `/pdf` JSON parsing) escape as uncaught
exceptions rather than distinguished statuses. -/
theorem explicit_statuses_only {Page : Type} (lib : Lib Page)
    (env : Option String) (req : Request) :
    (∀ s, generate lib env req = HandlerResult.abort s →
      s = 401 ∧ authOk env req = false) ∧
    (∀ s, multiple lib env req = HandlerResult.abort s →
      s = 401 ∧ authOk env req = false) ∧
    (∀ s, zip2pdf lib env req = HandlerResult.abort s →
      (s = 401 ∧ authOk env req = false) ∨
      (s = 400 ∧ ∃ entries, lib.unzip req.body = some entries ∧
        entries.filter (globMatch ".html") = [])) ∧
    (∀ s, (index req : HandlerResult Page) ≠ HandlerResult.abort s) ∧
    (∀ s, (home req : HandlerResult Page) ≠ HandlerResult.abort s) ∧
    (authOk env req = true → lib.parseJsonArr req.body = none →
      multiple lib env req = HandlerResult.exception) ∧
    (authOk env req = true → lib.unzip req.body = none →
      zip2pdf lib env req = HandlerResult.exception) ∧
    (authOk env req = true →
      assocGet req.headers "Content-Type" = some "application/json" →
      lib.parseHtmlCss req.body = none →
      generate lib env req = HandlerResult.exception) := by
  refine ⟨?_, ?_, ?_, ?_, ?_, ?_, ?_, ?_⟩
  · intro s h
    rcases authenticate_abort_cases env (generateBody lib) req s h with ⟨hA, rfl⟩ | ⟨-, hb⟩
    · exact ⟨rfl, hA⟩
    · exact absurd hb (generateBody_not_abort lib req s)
  · intro s h
    rcases authenticate_abort_cases env (multipleBody lib) req s h with ⟨hA, rfl⟩ | ⟨-, hb⟩
    · exact ⟨rfl, hA⟩
    · exact absurd hb (multipleBody_not_abort lib req s)
  · intro s h
    rcases authenticate_abort_cases env (zip2pdfBody lib) req s h with ⟨hA, rfl⟩ | ⟨-, hb⟩
    · exact Or.inl ⟨rfl, hA⟩
    · exact Or.inr ((zip2pdfBody_abort_iff lib req s).mp hb)
  · intro s
    simp [index]
  · intro s
    simp [home]
  · intro hA hp
    simp [multiple, authenticate, hA, multipleBody, hp]
  · intro hA hz
    simp [zip2pdf, authenticate, hA, zip2pdfBody, hz]
  · intro hA hct hp
    simp [generate, authenticate, hA, generateBody, hct, hp]

/-- Witness for C7: an authorized POST to `/multiple` whose body is not a
JSON array raises instead of producing a distinguished status. -/
theorem explicit_statuses_only_wit :
    multiple natLib (some "k") ⟨[("X_API_KEY", "k")], [], "notjson"⟩ =
      HandlerResult.exception :=
  (explicit_statuses_only natLib (some "k")
    ⟨[("X_API_KEY", "k")], [], "notjson"⟩).2.2.2.2.2.1 (by decide) (by decide)
